import Mathlib

/-!
Verification of the FANS chain-swarm coordination core against its
specification. The repository ships only the header `planner_ns3.h`
(declarations and doc comments); the bodies of the planner functions live in
translation units that are not part of the available sources, so the
coordination behaviour is modelled from the specification, faithful to its
words and to the declared signatures.
-/

namespace rnl

/-- Three-dimensional vector over the rationals: the executable model of the
`ns3::Vector3D` coordinates used throughout `planner_ns3.h`. -/
structure Vector3D where
  x : ℚ
  y : ℚ
  z : ℚ
deriving DecidableEq

instance : Inhabited Vector3D := ⟨⟨0, 0, 0⟩⟩

/-- Squared Euclidean distance between two 3D points. -/
def distSq (a b : Vector3D) : ℚ :=
  (a.x - b.x) ^ 2 + (a.y - b.y) ^ 2 + (a.z - b.z) ^ 2

/-- Euclidean distance between two 3D points, as a real number. -/
noncomputable def euclidDist (a b : Vector3D) : ℝ :=
  Real.sqrt ((distSq a b : ℚ) : ℝ)

/-- Exact boolean test for `euclidDist a b < d`, computed over `ℚ` by
comparing squared distances (the distance is below `d` exactly when `d` is
nonnegative and the squared distance is below `d ^ 2`). -/
def distLtB (a b : Vector3D) (d : ℚ) : Bool :=
  decide (0 ≤ d) && decide (distSq a b < d ^ 2)

/-- Modelled from the spec: the body of `Planner::siteReached` is not under
`src/` (only its declaration is, `planner_ns3.h` line 356). Per spec section
4.3 it tests whether the Euclidean 3D distance from the queried node position
to the process-wide disaster centre (`Planner::disas_centre`, a static
member) is strictly below a per-agent threshold drawn from the static
configuration by drone id. -/
def siteReached (disas_centre : Vector3D) (thr : ℕ → ℚ) (node_pos : Vector3D)
    (ID : ℕ) : Bool :=
  distLtB node_pos disas_centre (thr ID)

/-- Modelled from the spec: `rnl::Nbt` is declared in `planner_config.h`,
which is not under `src/`. Per spec section 3 it records an agent's one-hop
neighbour ids; only the id set matters to the initial-table contract. -/
structure Nbt where
  one_hop : List ℕ
deriving DecidableEq

/-- Modelled from the spec: the body of `rnl::setinitialNbt` is not under
`src/`. Its doc comment (`planner_ns3.h` lines 276-285) and spec section 4.1
fix the rule: the one-hop neighbours of `id` are `id - 1` and `id + 1`,
clipped at the chain ends to `[0, n - 1]`. -/
def setinitialNbt (id n : ℕ) : Nbt :=
  ⟨(if 1 ≤ id then [id - 1] else []) ++ (if id + 1 ≤ n - 1 then [id + 1] else [])⟩

/-- Command kinds carried by chain messages, spec section 3. -/
inductive CommandKind
  | FOLLOW
  | HOLD
  | SHUTDOWN
deriving DecidableEq

instance : Inhabited CommandKind := ⟨.FOLLOW⟩

/-- Inbound status/guidance message, spec section 3: structurally identical
to the outbound message, read-only to the receiver. -/
structure InboundMessage where
  senderId : ℕ
  targetToFollow : Vector3D
  commandKind : CommandKind
  sequence : ℤ
deriving DecidableEq

instance : Inhabited InboundMessage := ⟨⟨0, default, default, 0⟩⟩

/-- Parse failures for inbound payloads, spec sections 4.2 and 7: a payload
is malformed when its length is wrong or its sender id is out of range. -/
inductive ParseError
  | wrongLength
  | senderOutOfRange
deriving DecidableEq

/-- Fixed wire length of an inbound payload in the model: sender id, command
kind, three target coordinates, and a sequence number. -/
def msgLen : ℕ := 6

/-- Total decoding of the command-kind field. -/
def decodeCommand (c : ℤ) : CommandKind :=
  if c = 0 then .FOLLOW else if c = 1 then .HOLD else .SHUTDOWN

/-- Modelled from the spec: the parsing done inside `DroneSoc::receivePacket`
is not under `src/` (only the callback declaration is, `planner_ns3.h` line
80). Per spec section 4.2, `parseInbound(raw)` yields an `InboundMessage`,
or a `ParseError` on a malformed payload (wrong length, or sender id out of
range for a swarm of `n` agents). -/
def parseInbound (n : ℕ) (raw : List ℤ) : Except ParseError InboundMessage :=
  if raw.length ≠ msgLen then .error .wrongLength
  else if 0 ≤ raw.getD 0 0 ∧ raw.getD 0 0 < (n : ℤ) then
    .ok { senderId := (raw.getD 0 0).toNat
        , targetToFollow := ⟨(raw.getD 2 0 : ℚ), (raw.getD 3 0 : ℚ), (raw.getD 4 0 : ℚ)⟩
        , commandKind := decodeCommand (raw.getD 1 0)
        , sequence := raw.getD 5 0 }
  else .error .senderOutOfRange

/-- Agent roles, spec section 3 (LEFT/RIGHT are the chain arms, the naming
used by the `Planner::updateSocs` doc comment). -/
inductive Role
  | LEADER
  | LEFT
  | RIGHT
  | CENTER
  | TAIL
deriving DecidableEq

instance : Inhabited Role := ⟨.LEADER⟩

/-- Modelled from the spec: the coordination-relevant fields of
`rnl::DroneSoc` (`planner_ns3.h` lines 141-151), with the socket and ROS
plumbing out of scope; the role tag is the spec-section-3 tagged variant.
`msg_rec` holds the last successfully parsed inbound message. -/
structure DroneSoc where
  id : ℕ
  role : Role
  anch_pos : Vector3D
  msg_rec : InboundMessage
  nbt : Nbt
  wpts : List Vector3D
  pos : Vector3D
  lookaheadindex : ℕ
deriving DecidableEq

instance : Inhabited DroneSoc := ⟨⟨0, default, default, default, ⟨[]⟩, [], default, 0⟩⟩

/-- Modelled from the spec: per section 7, a malformed inbound payload is
discarded and the agent retains its prior state; a well-formed payload is
stored as the received message. -/
def ingestRaw (n : ℕ) (s : DroneSoc) (raw : List ℤ) : DroneSoc :=
  match parseInbound n raw with
  | .error _ => s
  | .ok m => { s with msg_rec := m }

/-- Modelled from the spec: the body of `Planner::incLookAhead` is not under
`src/` (only its declaration is, `planner_ns3.h` line 366). Per spec section
4.3, `advance` increments the look-ahead index while the distance from the
current position to the indexed waypoint is below the arrival threshold and
the index is not the last one. -/
def advanceIdx (wpts : List Vector3D) (pos : Vector3D) (thr : ℚ) (i : ℕ) : ℕ :=
  if h : i + 1 < wpts.length ∧ distLtB pos (wpts.getD i default) thr = true then
    advanceIdx wpts pos thr (i + 1)
  else i
termination_by wpts.length - i
decreasing_by
  have := h.1
  omega

/-- One waypoint-follower tick for a drone: advance its look-ahead index
over its current queue. -/
def followerAdvance (thr : ℚ) (s : DroneSoc) : DroneSoc :=
  { s with lookaheadindex := advanceIdx s.wpts s.pos thr s.lookaheadindex }

/-- Wholesale waypoint-queue replacement, spec section 3: the look-ahead
index resets to 0 exactly when the entire queue is replaced. -/
def replaceQueue (s : DroneSoc) (q : List Vector3D) : DroneSoc :=
  { s with wpts := q, lookaheadindex := 0 }

/-- One straight leg of a sweep pattern. -/
structure Leg where
  legStart : Vector3D
  legEnd : Vector3D
deriving DecidableEq

instance : Inhabited Leg := ⟨⟨default, default⟩⟩

/-- Traversal direction of the `k`-th sweep leg: alternates every leg. -/
def legDir (k : ℕ) : ℚ := if k % 2 = 0 then 1 else -1

/-- Number of sweep legs covering a width at the given line spacing. -/
def legCount (lineSpacing sweepWidth : ℚ) : ℕ :=
  (⌊sweepWidth / lineSpacing⌋).toNat + 1

/-- The `k`-th sweep leg: offset by `k` line spacings across the width,
centred on the anchor, traversed in alternating direction along the length
axis. -/
def legAt (anchor : Vector3D) (lineSpacing sweepWidth sweepLength : ℚ) (k : ℕ) : Leg :=
  ⟨⟨anchor.x - legDir k * (sweepLength / 2), anchor.y - sweepWidth / 2 + k * lineSpacing, anchor.z⟩,
   ⟨anchor.x + legDir k * (sweepLength / 2), anchor.y - sweepWidth / 2 + k * lineSpacing, anchor.z⟩⟩

/-- Modelled from the spec: the body of `Planner::doLawnMoverScanning` is not
under `src/` (only its declaration is, `planner_ns3.h` line 401). Per spec
section 4.4, the generator produces straight legs alternating traversal
direction (serpentine), each leg offset by the line spacing from the
previous one, centred on the anchor. -/
def sweepLegs (anchor : Vector3D) (lineSpacing sweepWidth sweepLength : ℚ) : List Leg :=
  (List.range (legCount lineSpacing sweepWidth)).map
    (legAt anchor lineSpacing sweepWidth sweepLength)

/-- The ordered waypoint sequence of a sweep: both endpoints of every leg in
order. -/
def sweepWaypoints (anchor : Vector3D) (lineSpacing sweepWidth sweepLength : ℚ) :
    List Vector3D :=
  (sweepLegs anchor lineSpacing sweepWidth sweepLength).flatMap
    (fun l => [l.legStart, l.legEnd])

/-- Displacement of a leg along the length (x) axis. -/
def legDx (l : Leg) : ℚ := l.legEnd.x - l.legStart.x

/-- Displacement of a leg along the width (y) axis. -/
def legDy (l : Leg) : ℚ := l.legEnd.y - l.legStart.y

/-- Sweep-plan construction failure, spec sections 4.4 and 7. -/
inductive SweepError
  | invalidSweepGeometry
deriving DecidableEq

/-- Modelled from the spec: degenerate sweep geometry (line spacing at least
the sweep width, or zero sweep length) fails sweep-plan construction with
`InvalidSweepGeometry` instead of producing a sequence (spec sections 4.4
and 7). -/
def mkSweepPlan (anchor : Vector3D) (lineSpacing sweepWidth sweepLength : ℚ) :
    Except SweepError (List Leg) :=
  if lineSpacing ≥ sweepWidth ∨ sweepLength = 0 then .error .invalidSweepGeometry
  else .ok (sweepLegs anchor lineSpacing sweepWidth sweepLength)

/-- Modelled from the spec: an agent entering SWEEPING replaces its waypoint
queue with the sweep plan built around its anchor; on `InvalidSweepGeometry`
the construction is abandoned and the agent remains in its prior state
(spec section 7). -/
def tryStartSweep (s : DroneSoc) (lineSpacing sweepWidth sweepLength : ℚ) : DroneSoc :=
  match mkSweepPlan s.anch_pos lineSpacing sweepWidth sweepLength with
  | .error _ => s
  | .ok legs => replaceQueue s (legs.flatMap (fun l => [l.legStart, l.legEnd]))

/-- `siteReached` as invoked for a drone soc: only the drone's position and
id enter the call, next to the process-wide static centre and threshold
configuration (`planner_ns3.h` lines 356 and 417). -/
def siteReachedSoc (disas_centre : Vector3D) (thr : ℕ → ℚ) (s : DroneSoc) : Bool :=
  siteReached disas_centre thr s.pos s.id

/-- Modelled from the spec: the body of `Planner::updateSocs` is not under
`src/` (only its declaration is, `planner_ns3.h` line 406); its doc comment
says it updates the state of LEFT and RIGHT drones only. A LEFT or RIGHT
drone advances its look-ahead index over its sweep waypoints; every other
drone is left untouched. -/
def updateSoc (thr : ℕ → ℚ) (s : DroneSoc) : DroneSoc :=
  if s.role = Role.LEFT ∨ s.role = Role.RIGHT then followerAdvance (thr s.id) s else s

/-- The per-tick pass over all drone socs, mapping `updateSoc` over the
swarm in id order. -/
def updateSocs (thr : ℕ → ℚ) (socs : List DroneSoc) : List DroneSoc :=
  socs.map (updateSoc thr)

/-- Modelled from the spec: the bodies of `Planner::updateStateofCentre` and
the tick scheduler are not under `src/`. Per spec section 4.5, anchors are
hop-propagated one FSM tick per hop: the chain is indexed by distance from
the leader, an anchor is frozen once committed, and with non-dropped
delivery an agent derives its anchor (via `derive`) one tick after the
neighbour one hop closer to the leader has committed one. -/
def convergeStep (derive : Vector3D → Vector3D) (s : ℕ → Option Vector3D) :
    ℕ → Option Vector3D :=
  fun k =>
    if (s k).isSome then s k
    else if 0 < k then (s (k - 1)).map derive
    else none

/-- One chain agent's shutdown-relevant state: whether it has entered the
terminal SHUTDOWN state, and whether its sender socket is still open. -/
structure ShutSoc where
  isShutdown : Bool
  senderOpen : Bool
deriving DecidableEq

/-- The observable actions a shutting-down agent performs. -/
inductive ShutAction
  | forwardShutdown (succ : ℕ)
  | terminateSender
deriving DecidableEq

instance : Inhabited ShutAction := ⟨.terminateSender⟩

/-- Modelled from the spec: the body of `DroneSoc::closeSender` is not under
`src/` (only its declaration is, `planner_ns3.h` line 85). Its doc comment
and spec section 4.5 fix the order: a shutting-down agent first sends the
shutdown command onward to its successor, then terminates its own sender. -/
def closeSenderActions (id : ℕ) : List ShutAction :=
  [.forwardShutdown (id + 1), .terminateSender]

/-- Modelled from the spec: hop-by-hop shutdown propagation, one tick per
hop, indexed by chain distance from the leader. An agent whose neighbour one
hop closer to the leader was in SHUTDOWN at the previous tick enters
SHUTDOWN with its sender terminated (after forwarding, per
`closeSenderActions`); SHUTDOWN is terminal. -/
def shutStep (s : ℕ → ShutSoc) : ℕ → ShutSoc :=
  fun k =>
    if (s k).isShutdown then s k
    else if 0 < k ∧ (s (k - 1)).isShutdown then ⟨true, false⟩
    else s k

/-- A concrete inbound message used by the concrete checks below. -/
def exMsgA : InboundMessage := ⟨0, ⟨9, 9, 9⟩, .FOLLOW, 0⟩

/-- A second concrete inbound message, differing from `exMsgA` in its
guidance target. -/
def exMsgB : InboundMessage := ⟨0, ⟨0, 0, 0⟩, .HOLD, 1⟩

/-- A concrete drone soc. -/
def exSocA : DroneSoc := ⟨2, .LEFT, ⟨0, 0, 0⟩, exMsgA, ⟨[1, 3]⟩, [], ⟨1, 2, 3⟩, 0⟩

/-- `exSocA` with a different received guidance message, same position and
id. -/
def exSocB : DroneSoc := { exSocA with msg_rec := exMsgB }

/-- `exSocA` with the CENTER role. -/
def exSocC : DroneSoc := { exSocA with role := Role.CENTER }

/-- A concrete anchor state: only the leader (distance 0) has committed. -/
def exAnchors : ℕ → Option Vector3D :=
  fun i => if i = 0 then some ⟨0, 0, 0⟩ else none

/-- A concrete shutdown state: only the leader (distance 0) is shut down. -/
def exShut0 : ℕ → ShutSoc :=
  fun i => if i = 0 then ⟨true, false⟩ else ⟨false, true⟩

/-- The squared distance is a sum of squares, hence nonnegative. -/
theorem distSq_nonneg (a b : Vector3D) : 0 ≤ distSq a b := by
  unfold distSq
  positivity

/-- `distLtB` decides the strict Euclidean-distance comparison exactly. -/
theorem distLtB_iff (a b : Vector3D) (d : ℚ) :
    distLtB a b d = true ↔ euclidDist a b < (d : ℝ) := by
  unfold distLtB euclidDist
  rw [Bool.and_eq_true, decide_eq_true_iff, decide_eq_true_iff]
  constructor
  · rintro ⟨h0, hlt⟩
    rcases h0.lt_or_eq with hpos | hzero
    · rw [Real.sqrt_lt' (by exact_mod_cast hpos)]
      have : ((distSq a b : ℚ) : ℝ) < ((d : ℚ) : ℝ) ^ 2 := by exact_mod_cast hlt
      exact this
    · exfalso
      have := distSq_nonneg a b
      rw [← hzero] at hlt
      nlinarith
  · intro h
    have hd : (0 : ℝ) < (d : ℝ) := lt_of_le_of_lt (Real.sqrt_nonneg _) h
    have h0 : (0 : ℚ) ≤ d := by exact_mod_cast hd.le
    rw [Real.sqrt_lt' hd] at h
    exact ⟨h0, by exact_mod_cast h⟩

/-- C3: for every position `p`, target centre `t` and per-agent threshold
configuration `thr`, `siteReached` returns `true` exactly when the Euclidean
3D distance from `p` to `t` is strictly below the agent's threshold, and it
returns `false` when the distance equals the threshold exactly (boundary
exclusive). -/
theorem siteReached_iff_dist_lt (t : Vector3D) (thr : ℕ → ℚ) (p : Vector3D) (ID : ℕ) :
    (siteReached t thr p ID = true ↔ euclidDist p t < (thr ID : ℝ)) ∧
    (euclidDist p t = (thr ID : ℝ) → siteReached t thr p ID = false) := by
  refine ⟨distLtB_iff p t (thr ID), fun heq => ?_⟩
  rw [← Bool.not_eq_true]
  simp only [siteReached]
  rw [distLtB_iff p t (thr ID), heq]
  exact lt_irrefl _

/-- Concrete boundary check for C3: at distance exactly 5 with threshold 5,
`siteReached` is `false`. -/
theorem siteReached_boundary_example :
    siteReached ⟨0, 0, 0⟩ (fun _ => 5) ⟨3, 4, 0⟩ 0 = false := by
  have h5 : euclidDist ⟨3, 4, 0⟩ ⟨0, 0, 0⟩ = ((5 : ℚ) : ℝ) := by
    unfold euclidDist
    rw [show distSq ⟨3, 4, 0⟩ ⟨0, 0, 0⟩ = 25 from by norm_num [distSq]]
    rw [show (((25 : ℚ)) : ℝ) = (5 : ℝ) ^ 2 from by norm_num]
    rw [Real.sqrt_sq (by norm_num)]
    norm_num
  exact (siteReached_iff_dist_lt ⟨0, 0, 0⟩ (fun _ => 5) ⟨3, 4, 0⟩ 0).2 h5

/-- C9: the `siteReached` test is a function only of the queried node
position, the agent id, and the process-wide static centre and threshold
configuration: two drone socs agreeing on position and id yield the same
result under the same static configuration, regardless of any per-agent
inbound guidance target or other per-agent state. -/
theorem siteReached_depends_only_on_pos_id (disas_centre : Vector3D) (thr : ℕ → ℚ)
    (s1 s2 : DroneSoc) (hp : s1.pos = s2.pos) (hi : s1.id = s2.id) :
    siteReachedSoc disas_centre thr s1 = siteReachedSoc disas_centre thr s2 := by
  unfold siteReachedSoc siteReached
  rw [hp, hi]

/-- Concrete check for C9: two socs differing only in the received guidance
message produce the same `siteReached` result. -/
theorem siteReached_depends_only_on_pos_id_witness :
    siteReachedSoc ⟨0, 0, 0⟩ (fun _ => 1) exSocA = siteReachedSoc ⟨0, 0, 0⟩ (fun _ => 1) exSocB :=
  siteReached_depends_only_on_pos_id ⟨0, 0, 0⟩ (fun _ => 1) exSocA exSocB rfl rfl

/-- C5: for every chain of `n ≥ 2` agents and every id `i < n`, the initial
neighbour table of agent `i` contains exactly the ids `i - 1` and `i + 1`
clipped to `[0, n - 1]` and excluding `i` itself: interior agents get both
neighbours, agent `0` only `1`, and agent `n - 1` only `n - 2`. -/
theorem setinitialNbt_mem (n i : ℕ) (hn : 2 ≤ n) (hi : i < n) (j : ℕ) :
    j ∈ (setinitialNbt i n).one_hop ↔ ((j + 1 = i ∨ j = i + 1) ∧ j < n ∧ j ≠ i) := by
  simp only [setinitialNbt, List.mem_append]
  split_ifs with h1 h2 <;> simp_all <;> omega

/-- Concrete check for C5: in a 4-agent chain, agent 1's initial table
contains agent 0. -/
theorem setinitialNbt_mem_witness :
    0 ∈ (setinitialNbt 1 4).one_hop ↔ ((0 + 1 = 1 ∨ 0 = 1 + 1) ∧ 0 < 4 ∧ 0 ≠ 1) :=
  setinitialNbt_mem 4 1 (by norm_num) (by norm_num) 0

/-- The look-ahead advance never decreases the index. -/
theorem advanceIdx_le (wpts : List Vector3D) (pos : Vector3D) (thr : ℚ) (i : ℕ) :
    i ≤ advanceIdx wpts pos thr i := by
  have H : ∀ fuel j, wpts.length - j ≤ fuel → j ≤ advanceIdx wpts pos thr j := by
    intro fuel
    induction fuel with
    | zero =>
      intro j hle
      rw [advanceIdx]
      split
      next h =>
        exfalso
        have := h.1
        omega
      next h => exact le_refl j
    | succ f ih =>
      intro j hle
      rw [advanceIdx]
      split
      next h =>
        refine le_trans (Nat.le_succ j) (ih (j + 1) ?_)
        have := h.1
        omega
      next h => exact le_refl j
  exact H wpts.length i (by omega)

/-- C4: across a waypoint-follower advance the look-ahead index is
non-decreasing, and a full queue replacement — the only operation that may
decrement it — resets it to exactly 0. -/
theorem lookahead_monotone_and_reset (s : DroneSoc) (thr : ℚ) (q : List Vector3D) :
    s.lookaheadindex ≤ (followerAdvance thr s).lookaheadindex ∧
    (replaceQueue s q).lookaheadindex = 0 :=
  ⟨advanceIdx_le s.wpts s.pos thr s.lookaheadindex, rfl⟩

/-- The sweep-leg list has one leg per line of the pattern. -/
theorem sweepLegs_length (anchor : Vector3D) (ls sw sl : ℚ) :
    (sweepLegs anchor ls sw sl).length = legCount ls sw := by
  simp [sweepLegs]

/-- Indexing into the sweep-leg list yields the `k`-th generated leg. -/
theorem sweepLegs_getD (anchor : Vector3D) (ls sw sl : ℚ) (k : ℕ)
    (hk : k < legCount ls sw) :
    (sweepLegs anchor ls sw sl).getD k default = legAt anchor ls sw sl k := by
  rw [List.getD_eq_getElem _ _ (by simpa [sweepLegs] using hk)]
  simp [sweepLegs]

/-- The traversal direction flips on every consecutive leg. -/
theorem legDir_succ (k : ℕ) : legDir (k + 1) = - legDir k := by
  rcases Nat.mod_two_eq_zero_or_one k with h | h <;>
    simp [legDir, Nat.add_mod, h]

/-- C6: the sweep-pattern generator is a deterministic pure function — equal
inputs yield the identical ordered, finite waypoint sequence — and
consecutive legs differ in the sign of exactly one planar axis: the
along-length displacement flips sign while the cross displacement stays
zero (serpentine alternation). -/
theorem sweep_deterministic_serpentine (anchor : Vector3D) (ls sw sl : ℚ) :
    (∀ a2 s2 w2 l2, anchor = a2 → ls = s2 → sw = w2 → sl = l2 →
      sweepWaypoints anchor ls sw sl = sweepWaypoints a2 s2 w2 l2) ∧
    (∀ k, k + 1 < (sweepLegs anchor ls sw sl).length →
      legDx ((sweepLegs anchor ls sw sl).getD (k + 1) default) =
        - legDx ((sweepLegs anchor ls sw sl).getD k default) ∧
      legDy ((sweepLegs anchor ls sw sl).getD (k + 1) default) = 0 ∧
      legDy ((sweepLegs anchor ls sw sl).getD k default) = 0) := by
  constructor
  · rintro a2 s2 w2 l2 rfl rfl rfl rfl
    rfl
  · intro k hk
    rw [sweepLegs_length] at hk
    rw [sweepLegs_getD _ _ _ _ _ (by omega), sweepLegs_getD _ _ _ _ _ (by omega)]
    refine ⟨?_, ?_, ?_⟩
    · simp only [legDx, legAt]
      rw [legDir_succ]
      ring
    · simp [legDy, legAt]
    · simp [legDy, legAt]

/-- Concrete check for C6: with spacing 1 over width 2, the second leg runs
opposite to the first. -/
theorem sweep_serpentine_example :
    legDx ((sweepLegs ⟨0, 0, 0⟩ 1 2 4).getD 1 default) =
      - legDx ((sweepLegs ⟨0, 0, 0⟩ 1 2 4).getD 0 default) :=
  (((sweep_deterministic_serpentine ⟨0, 0, 0⟩ 1 2 4).2 0
    (by rw [sweepLegs_length]; unfold legCount; norm_num)).1)

/-- C7: degenerate sweep geometry — line spacing at least the sweep width,
or zero sweep length — makes sweep-plan construction fail with
`InvalidSweepGeometry`, and the failure is fatal to the plan construction
only: the agent remains in its prior state. -/
theorem degenerate_sweep_fails (anchor : Vector3D) (s : DroneSoc) (ls sw sl : ℚ)
    (hdeg : ls ≥ sw ∨ sl = 0) :
    mkSweepPlan anchor ls sw sl = .error .invalidSweepGeometry ∧
    tryStartSweep s ls sw sl = s := by
  constructor
  · unfold mkSweepPlan
    rw [if_pos hdeg]
  · unfold tryStartSweep mkSweepPlan
    rw [if_pos hdeg]

/-- Concrete check for C7: spacing 5 over width 2 is rejected and leaves the
agent untouched. -/
theorem degenerate_sweep_fails_witness :
    mkSweepPlan ⟨0, 0, 0⟩ 5 2 4 = .error .invalidSweepGeometry ∧
    tryStartSweep exSocA 5 2 4 = exSocA :=
  degenerate_sweep_fails ⟨0, 0, 0⟩ exSocA 5 2 4 (Or.inl (by norm_num))

/-- C8: every malformed inbound payload — wrong length, or out-of-range
sender id — parses to a `ParseError` rather than an `InboundMessage`, the
message is discarded, and the receiving agent's state after processing it
equals its state before. -/
theorem malformed_parse_rejected (n : ℕ) (raw : List ℤ) (s : DroneSoc)
    (hmal : raw.length ≠ msgLen ∨ ¬(0 ≤ raw.getD 0 0 ∧ raw.getD 0 0 < (n : ℤ))) :
    (∃ e, parseInbound n raw = Except.error e) ∧ ingestRaw n s raw = s := by
  have hp : ∃ e, parseInbound n raw = Except.error e := by
    unfold parseInbound
    by_cases hl : raw.length ≠ msgLen
    · rw [if_pos hl]
      exact ⟨_, rfl⟩
    · rw [if_neg hl]
      have hid : ¬(0 ≤ raw.getD 0 0 ∧ raw.getD 0 0 < (n : ℤ)) := by tauto
      rw [if_neg hid]
      exact ⟨_, rfl⟩
  obtain ⟨e, he⟩ := hp
  refine ⟨⟨e, he⟩, ?_⟩
  unfold ingestRaw
  rw [he]

/-- Concrete check for C8: the empty payload is rejected and leaves the
agent unchanged. -/
theorem malformed_parse_rejected_witness :
    (∃ e, parseInbound 3 [] = Except.error e) ∧ ingestRaw 3 exSocA [] = exSocA :=
  malformed_parse_rejected 3 [] exSocA (Or.inl (by norm_num [msgLen]))

/-- Unfolding equation for one propagation tick at one chain position. -/
theorem convergeStep_apply (derive : Vector3D → Vector3D) (s : ℕ → Option Vector3D)
    (k : ℕ) :
    convergeStep derive s k =
      if (s k).isSome then s k
      else if 0 < k then (s (k - 1)).map derive
      else none := rfl

/-- A committed anchor survives a propagation tick. -/
theorem convergeStep_isSome (derive : Vector3D → Vector3D) (s : ℕ → Option Vector3D)
    (k : ℕ) (h : (s k).isSome = true) : ((convergeStep derive s) k).isSome = true := by
  rw [convergeStep_apply, if_pos h]
  exact h

/-- After `k` ticks, the agent at chain distance `k` has an anchor. -/
theorem converge_reach (derive : Vector3D → Vector3D) (s0 : ℕ → Option Vector3D)
    (h : (s0 0).isSome = true) (k : ℕ) :
    (((convergeStep derive)^[k]) s0 k).isSome = true := by
  induction k with
  | zero => simpa using h
  | succ k ih =>
    rw [Function.iterate_succ_apply']
    by_cases h1 : (((convergeStep derive)^[k]) s0 (k + 1)).isSome = true
    · exact convergeStep_isSome derive _ (k + 1) h1
    · rw [convergeStep_apply, if_neg h1, if_pos (Nat.succ_pos k)]
      simpa using ih

/-- Committed anchors persist under any further number of ticks. -/
theorem converge_persist (derive : Vector3D → Vector3D) (s : ℕ → Option Vector3D)
    (j k : ℕ) (h : (s k).isSome = true) :
    (((convergeStep derive)^[j]) s k).isSome = true := by
  induction j with
  | zero => simpa using h
  | succ j ih =>
    rw [Function.iterate_succ_apply']
    exact convergeStep_isSome derive _ k ih

/-- C1: with reliable per-tick delivery, if the leader has committed an
anchor at tick `t0`, then the agent at chain distance `k` has committed a
derived anchor by tick `t0 + k` — and it still holds one at every later
tick, so for a chain of `N` agents full convergence takes at most `N - 1`
ticks after the leader commits (`k ≤ m := N - 1`). -/
theorem chain_convergence (derive : Vector3D → Vector3D) (s0 : ℕ → Option Vector3D)
    (a : Vector3D) (h0 : s0 0 = some a) (k m : ℕ) (hkm : k ≤ m) :
    (((convergeStep derive)^[m]) s0 k).isSome = true := by
  obtain ⟨j, rfl⟩ := Nat.exists_eq_add_of_le hkm
  rw [show k + j = j + k from Nat.add_comm k j, Function.iterate_add_apply]
  exact converge_persist derive _ j k (converge_reach derive s0 (by simp [h0]) k)

/-- Concrete check for C1: with only the leader committed, the agent at
distance 1 has an anchor after 2 ticks. -/
theorem chain_convergence_witness :
    (((convergeStep id)^[2]) exAnchors 1).isSome = true :=
  chain_convergence id exAnchors ⟨0, 0, 0⟩ rfl 1 2 (by norm_num)

/-- Unfolding equation for one shutdown-propagation tick at one position. -/
theorem shutStep_apply (s : ℕ → ShutSoc) (k : ℕ) :
    shutStep s k =
      if (s k).isShutdown then s k
      else if 0 < k ∧ (s (k - 1)).isShutdown then ⟨true, false⟩
      else s k := rfl

/-- The terminal SHUTDOWN state survives a propagation tick. -/
theorem shutStep_isShutdown (s : ℕ → ShutSoc) (k : ℕ)
    (h : (s k).isShutdown = true) : ((shutStep s) k).isShutdown = true := by
  rw [shutStep_apply, if_pos h]
  exact h

/-- After `k` ticks, the agent at chain distance `k` is shut down. -/
theorem shut_reach (s0 : ℕ → ShutSoc) (h : (s0 0).isShutdown = true) (k : ℕ) :
    ((shutStep^[k]) s0 k).isShutdown = true := by
  induction k with
  | zero => simpa using h
  | succ k ih =>
    rw [Function.iterate_succ_apply']
    by_cases h1 : (((shutStep)^[k]) s0 (k + 1)).isShutdown = true
    · exact shutStep_isShutdown _ (k + 1) h1
    · rw [shutStep_apply, if_neg h1, if_pos ⟨Nat.succ_pos k, ih⟩]

/-- C2: if the leader is in SHUTDOWN at tick `t0`, the tail agent at chain
distance `N - 1` reaches the SHUTDOWN state by tick `t0 + N - 1`; and every
agent's shutdown handling forwards the shutdown command to its successor
strictly before terminating its own sender. -/
theorem shutdown_propagation (s0 : ℕ → ShutSoc) (h0 : (s0 0).isShutdown = true)
    (n : ℕ) (_hn : 1 ≤ n) :
    ((shutStep^[n - 1]) s0 (n - 1)).isShutdown = true ∧
    ∀ id, ∃ i j, i < j ∧ j < (closeSenderActions id).length ∧
      (closeSenderActions id).getD i default = ShutAction.forwardShutdown (id + 1) ∧
      (closeSenderActions id).getD j default = ShutAction.terminateSender := by
  refine ⟨shut_reach s0 h0 (n - 1), fun id => ⟨0, 1, ?_, ?_, rfl, rfl⟩⟩
  · norm_num
  · norm_num [closeSenderActions]

/-- Concrete check for C2: with a 3-agent chain whose leader is shut down,
the tail (distance 2) is shut down after 2 ticks. -/
theorem shutdown_propagation_witness :
    ((shutStep^[2]) exShut0 2).isShutdown = true :=
  (shutdown_propagation exShut0 rfl 3 (by norm_num)).1

/-- C10: the per-tick `updateSocs` pass modifies only LEFT and RIGHT drones:
any drone whose role is neither LEFT nor RIGHT keeps its entire state —
waypoints, anchor, messages, look-ahead index — unchanged. -/
theorem updateSocs_frame (thr : ℕ → ℚ) (socs : List DroneSoc) (i : ℕ)
    (hi : i < socs.length)
    (hL : (socs.getD i default).role ≠ Role.LEFT)
    (hR : (socs.getD i default).role ≠ Role.RIGHT) :
    (updateSocs thr socs).getD i default = socs.getD i default := by
  have hlen : i < (updateSocs thr socs).length := by simpa [updateSocs] using hi
  rw [List.getD_eq_getElem _ _ hi] at hL hR
  rw [List.getD_eq_getElem _ _ hlen, List.getD_eq_getElem _ _ hi]
  simp only [updateSocs, List.getElem_map]
  unfold updateSoc
  rw [if_neg (not_or.mpr ⟨hL, hR⟩)]

/-- Concrete check for C10: a CENTER drone is untouched by `updateSocs`. -/
theorem updateSocs_frame_witness :
    (updateSocs (fun _ => 1) [exSocC]).getD 0 default = [exSocC].getD 0 default :=
  updateSocs_frame (fun _ => 1) [exSocC] 0 (by norm_num) (by decide) (by decide)

end rnl
